import Mathlib

/-!
Verification of the lead-generation pipeline and campaign scheduler of the
livewire lead-generation backend, as a shallow embedding in Lean 4.

Strings are modelled by `String`, Python's `str.lower`/`str.strip` by maps
over the underlying character list, machine integers by `Int`/`Nat`, and the
database session by explicit state passing.  Each definition transcribes one
function of the source (file and function named in its doc comment).
-/

namespace Livewire

/-! ## String helpers (Python `str.lower`, `str.strip`, `in`) -/

/-- Python `s.lower()`: lower-case every character. -/
def lowerStr (s : String) : String := ⟨s.data.map Char.toLower⟩

/-- Drop leading and trailing whitespace from a character list. -/
def trimChars (l : List Char) : List Char :=
  ((l.dropWhile Char.isWhitespace).reverse.dropWhile Char.isWhitespace).reverse

/-- Python `s.strip()`: remove leading and trailing whitespace. -/
def stripStr (s : String) : String := ⟨trimChars s.data⟩

/-- Test: `needle` is a prefix of `hay` (character lists). -/
def prefixOfList : List Char → List Char → Bool
  | [], _ => true
  | _ :: _, [] => false
  | a :: as, b :: bs => a = b && prefixOfList as bs

/-- Test: `needle` occurs as a contiguous substring of `hay` (character lists). -/
def containsSub (hay needle : List Char) : Bool :=
  prefixOfList needle hay ||
    match hay with
    | [] => false
    | _ :: t => containsSub t needle

/-- Python `needle in hay` for strings. -/
def strContains (hay needle : String) : Bool := containsSub hay.data needle.data

/-- Python `any(n in s for n in needles)`. -/
def containsAny (s : String) (needles : List String) : Bool :=
  needles.any (fun n => strContains s n)

/-! ## Candidate leads (transient pipeline dictionaries)

A candidate lead is the dictionary shape produced by the Apollo adapter and
annotated by the pipeline (`email_verification`, `linkedin_validation`,
`score`, `score_breakdown`).  Absent dictionary keys are modelled by the
falsy defaults the code's `.get` calls supply. -/

structure CandidateLead where
  name : String := ""
  email : String := ""
  phone : String := ""
  company : String := ""
  title : String := ""
  industry : String := ""
  location : String := ""
  linkedin_url : String := ""
  company_size : Int := 0
  /-- From `lead.get('email_verification', \x7b\x7d).get('result')`, `""` when absent. -/
  email_verification_result : String := ""
  /-- From `lead.get('linkedin_validation', \x7b\x7d).get('is_valid')`. -/
  linkedin_validation_is_valid : Bool := false
  email_verified : Bool := false
  score : Int := 0
  score_breakdown : List (String × Int) := []
deriving DecidableEq

/-! ## Scoring engine
`LeadGenerationService._calculate_lead_score` and `_get_score_breakdown`
(src/backend/src/services/lead_generator.py, lines 228-346), transcribed
block by block; the running `score += ...` accumulation becomes a sum of the
per-block contributions. -/

/-- Australian business email suffixes used by `_calculate_lead_score`. -/
def auDomainsScore : List String := [".com.au", ".org.au", ".net.au", ".gov.au"]

/-- Australian email suffixes used by `_get_score_breakdown` (a shorter list). -/
def auDomainsBreakdown : List String := [".com.au", ".org.au"]

def high_value_titles : List String :=
  ["ceo", "chief executive", "managing director", "general manager",
   "director", "head of", "manager", "leader", "principal",
   "founder", "owner", "president", "vice president", "vp"]

def target_industries : List String :=
  ["consulting", "professional services", "management",
   "healthcare", "education", "finance", "technology",
   "manufacturing", "construction", "government"]

def australian_cities : List String :=
  ["sydney", "melbourne", "brisbane", "perth", "adelaide",
   "canberra", "darwin", "hobart", "australia"]

/-- Email block of `_calculate_lead_score` (25 points max). -/
def email_points (l : CandidateLead) : Int :=
  if l.email ≠ "" then
    15 +
      (if l.email_verification_result = "deliverable" then 10
       else if l.email_verification_result = "risky" then 5 else 0) +
      (if containsAny (lowerStr l.email) auDomainsScore then 5 else 0)
  else 0

/-- Phone block of `_calculate_lead_score` (15 points). -/
def phone_points (l : CandidateLead) : Int :=
  if l.phone ≠ "" then 15 else 0

/-- LinkedIn block of `_calculate_lead_score` (15 points max). -/
def linkedin_points (l : CandidateLead) : Int :=
  if l.linkedin_url ≠ "" then
    10 + (if l.linkedin_validation_is_valid then 5 else 0)
  else 0

/-- Company block of `_calculate_lead_score` (20 points max). -/
def company_points (l : CandidateLead) : Int :=
  if l.company ≠ "" then
    10 +
      (if 50 ≤ l.company_size ∧ l.company_size ≤ 500 then 10
       else if 20 ≤ l.company_size ∧ l.company_size ≤ 1000 then 5 else 0)
  else 0

/-- Title block of `_calculate_lead_score` (15 points max). -/
def title_points (l : CandidateLead) : Int :=
  if lowerStr l.title ≠ "" then
    5 + (if containsAny (lowerStr l.title) high_value_titles then 10 else 0)
  else 0

/-- Industry block of `_calculate_lead_score` (10 points max). -/
def industry_points (l : CandidateLead) : Int :=
  if lowerStr l.industry ≠ "" then
    3 + (if containsAny (lowerStr l.industry) target_industries then 7 else 0)
  else 0

/-- Location block of `_calculate_lead_score` (5-point Australian bonus). -/
def location_points (l : CandidateLead) : Int :=
  if lowerStr l.location ≠ "" then
    (if containsAny (lowerStr l.location) australian_cities then 5 else 0)
  else 0

/-- The accumulated score before the final clamp. -/
def raw_lead_score (l : CandidateLead) : Int :=
  email_points l + phone_points l + linkedin_points l + company_points l +
    title_points l + industry_points l + location_points l

/-- Source `LeadGenerationService._calculate_lead_score`: `min(score, 100)`. -/
def calculate_lead_score (l : CandidateLead) : Int :=
  min (raw_lead_score l) 100

/-- Email entries of `_get_score_breakdown`. -/
def email_breakdown (l : CandidateLead) : List (String × Int) :=
  if l.email ≠ "" then
    [("email_present", 15)] ++
      (if l.email_verification_result = "deliverable" then [("email_verified", 10)]
       else if l.email_verification_result = "risky" then [("email_risky", 5)] else []) ++
      (if containsAny (lowerStr l.email) auDomainsBreakdown then [("australian_email", 5)] else [])
  else []

/-- Phone entry of `_get_score_breakdown`. -/
def phone_breakdown (l : CandidateLead) : List (String × Int) :=
  if l.phone ≠ "" then [("phone_present", 15)] else []

/-- LinkedIn entries of `_get_score_breakdown`. -/
def linkedin_breakdown (l : CandidateLead) : List (String × Int) :=
  if l.linkedin_url ≠ "" then
    [("linkedin_present", 10)] ++
      (if l.linkedin_validation_is_valid then [("linkedin_valid", 5)] else [])
  else []

/-- Company entries of `_get_score_breakdown`. -/
def company_breakdown (l : CandidateLead) : List (String × Int) :=
  if l.company ≠ "" then
    [("company_present", 10)] ++
      (if 50 ≤ l.company_size ∧ l.company_size ≤ 500 then [("optimal_company_size", 10)]
       else if 20 ≤ l.company_size ∧ l.company_size ≤ 1000 then [("good_company_size", 5)] else [])
  else []

/-- Source `LeadGenerationService._get_score_breakdown`: the breakdown dictionary as
an association list in insertion order.  It has no entries for the title,
industry or location blocks of `_calculate_lead_score`. -/
def get_score_breakdown (l : CandidateLead) : List (String × Int) :=
  email_breakdown l ++ phone_breakdown l ++ linkedin_breakdown l ++ company_breakdown l

/-- Sum of the point values of a breakdown. -/
def breakdown_total (b : List (String × Int)) : Int :=
  (b.map Prod.snd).sum

/-! ## Email format validation
`LeadGenerationService._is_valid_email_format` matches the anchored pattern
`^[a-zA-Z0-9._%+-]+@[a-zA-Z0-9.-]+\.[a-zA-Z]{2,}$`.  Neither character class
contains `@`, so the `@` of the pattern is the unique `@` of the string, and
the trailing `[a-zA-Z]{2,}$` forces the dot of the pattern to be the last dot
of the domain part. -/

def isLocalChar (c : Char) : Bool :=
  c.isAlpha || c.isDigit || c = '.' || c = '_' || c = '%' || c = '+' || c = '-'

def isDomainChar (c : Char) : Bool :=
  c.isAlpha || c.isDigit || c = '.' || c = '-'

/-- Split a character list on a separator character (Python `s.split(sep)`):
always returns at least one (possibly empty) segment. -/
def splitOnChar (sep : Char) : List Char → List (List Char)
  | [] => [[]]
  | c :: rest =>
      if c = sep then [] :: splitOnChar sep rest
      else
        match splitOnChar sep rest with
        | [] => [[c]]
        | h :: t => (c :: h) :: t

/-- Domain side of the pattern: `[a-zA-Z0-9.-]+\.[a-zA-Z]{2,}$`. -/
def validDomainPart (d : List Char) : Bool :=
  let rev := d.reverse
  let tldRev := rev.takeWhile (fun c => c ≠ '.')
  match rev.drop tldRev.length with
  | '.' :: preRev =>
      !preRev.isEmpty && preRev.all isDomainChar &&
        decide (2 ≤ tldRev.length) && tldRev.all Char.isAlpha
  | _ => false

/-- Source `LeadGenerationService._is_valid_email_format`. -/
def is_valid_email_format (s : String) : Bool :=
  match splitOnChar '@' s.data with
  | [localPart, domainPart] =>
      !localPart.isEmpty && localPart.all isLocalChar && validDomainPart domainPart
  | _ => false

/-! ## Deduplication and filtering
`LeadGenerationService._filter_and_deduplicate`
(src/backend/src/services/lead_generator.py, lines 152-188). -/

/-- Normalisation applied to a candidate's email: `.lower().strip()`. -/
def normEmail (s : String) : String := stripStr (lowerStr s)

/-- The streaming loop of `_filter_and_deduplicate`: `existingLower` is the
set of existing lead emails lower-cased (the code applies `.lower()` but not
`.strip()` to them), `seen` the batch-local `seen_emails` set. -/
def filterDedupGo (existingLower : List String) :
    List String → List CandidateLead → List CandidateLead
  | _, [] => []
  | seen, l :: rest =>
    let email := normEmail l.email
    if email = "" then filterDedupGo existingLower seen rest
    else if email ∈ seen then filterDedupGo existingLower seen rest
    else if email ∈ existingLower then filterDedupGo existingLower seen rest
    else if !is_valid_email_format email then filterDedupGo existingLower seen rest
    else if 0 < l.company_size ∧ l.company_size < 10 then filterDedupGo existingLower seen rest
    else l :: filterDedupGo existingLower (email :: seen) rest

/-- Source `LeadGenerationService._filter_and_deduplicate`, given the emails of the
client's existing leads as read from the store. -/
def filter_and_deduplicate (existingEmails : List String) (leads : List CandidateLead) :
    List CandidateLead :=
  filterDedupGo (existingEmails.map lowerStr) [] leads

/-! ## Apollo adapter
`ApolloAPIClient._process_person_data` and `_calculate_lead_score`
(src/backend/src/services/apollo_client.py). -/

/-- One person record of an Apollo `people` response, with the fields the
adapter reads (`.get` defaults shown). -/
structure ApolloPerson where
  first_name : String := ""
  last_name : String := ""
  email : String := ""
  title : String := ""
  city : String := ""
  linkedin_url : String := ""
  org_name : String := ""
  org_industry : String := ""
  org_estimated_num_employees : Int := 0
  org_primary_domain : String := ""
  phone_raw_numbers : List String := []
deriving DecidableEq

def generic_domains : List String :=
  ["gmail.com", "yahoo.com", "hotmail.com", "outlook.com"]

/-- Source `ApolloAPIClient._calculate_lead_score`: the provider-local preliminary
score (advisory only). -/
def apollo_calculate_lead_score (l : CandidateLead) : Int :=
  min
    ((if l.email ≠ "" then
        20 + (if containsAny (lowerStr l.email) auDomainsScore then 5 else 0) +
          (if !containsAny (lowerStr l.email) generic_domains then 5 else 0)
      else 0) +
     (if l.phone ≠ "" then 20 else 0) +
     (if l.linkedin_url ≠ "" then 15 else 0) +
     (if l.company ≠ "" then
        10 + (if 50 ≤ l.company_size ∧ l.company_size ≤ 1000 then 5 else 0)
      else 0) +
     (if l.title ≠ "" then 10 else 0) +
     (if l.industry ≠ "" then 5 else 0) +
     (if l.location ≠ "" then 5 else 0))
    100

/-- The name built by `_process_person_data`:
`f"{first_name} {last_name}".strip()` with both parts already stripped. -/
def apolloPersonName (p : ApolloPerson) : String :=
  stripStr (stripStr p.first_name ++ " " ++ stripStr p.last_name)

/-- Source `ApolloAPIClient._process_person_data`: normalise one person record into
the common candidate-lead shape, or `none` for the records the adapter
silently discards. -/
def process_person_data (p : ApolloPerson) : Option CandidateLead :=
  let name := apolloPersonName p
  if name = "" then none
  else
    let email := stripStr p.email
    if email = "" then none
    else
      let phone := match p.phone_raw_numbers with
        | [] => ""
        | x :: _ => x
      let lead : CandidateLead :=
        { name := name
          email := email
          phone := phone
          company := p.org_name
          title := p.title
          industry := p.org_industry
          location := p.city
          linkedin_url := p.linkedin_url
          company_size := p.org_estimated_num_employees }
      some { lead with score := apollo_calculate_lead_score lead }

/-- Source `ApolloAPIClient.search_people`, given the `people` array of the provider
response: process every record and keep the valid ones. -/
def search_people (people : List ApolloPerson) : List CandidateLead :=
  people.filterMap process_person_data

/-! ## Hunter adapter
`HunterAPIClient.verify_email` and `is_email_deliverable`
(src/backend/src/services/hunter_client.py). -/

/-- The `data` object of a successful Hunter email-verifier response
(`verification_data.get(...)`; absent keys are `none`). -/
structure HunterVerifData where
  status : Option String := none
  result : Option String := none
  score : Option Int := none
deriving DecidableEq

/-- The dictionary `verify_email` returns: `score` is absent (`none`) on the
error path, present with default 0 on the success path. -/
structure VerificationResult where
  email : String := ""
  status : Option String := none
  result : Option String := none
  score : Option Int := none
  error : Option String := none
deriving DecidableEq

/-- Source `HunterAPIClient.verify_email`.  The underlying HTTP request is modelled
by its outcome: `.ok` carries the response's `data` object, `.error` the
transport failure message (`_make_request` raises `HunterAPIError`); the
`except` block turns the failure into an error dictionary. -/
def verify_email (email : String) : Except String HunterVerifData → VerificationResult
  | .ok d =>
      { email := email
        status := d.status
        result := d.result
        score := some (d.score.getD 0)
        error := none }
  | .error e =>
      { email := email
        status := some "error"
        result := some "unknown"
        score := none
        error := some e }

/-- Source `HunterAPIClient.is_email_deliverable`. -/
def is_email_deliverable (v : VerificationResult) : Bool :=
  let r := lowerStr (v.result.getD "")
  r = "deliverable" || (r = "risky" && decide (70 ≤ v.score.getD 0))

/-! ## Lead generation pipeline
`LeadGenerationService.generate_leads`
(src/backend/src/services/lead_generator.py, lines 43-126), with the database
session as explicit state and the external providers as an environment. -/

/-- The `LeadCriteria` dataclass. -/
structure LeadCriteria where
  keywords : String := ""
  industries : List String := []
  locations : List String := []
  titles : List String := []
  company_sizes : List String := []
  min_score : Int := 60
  max_results : Nat := 100
  verify_emails : Bool := true
  enrich_linkedin : Bool := true
deriving DecidableEq

/-- The quota fields of the `Client` model (src/backend/src/models/client.py). -/
structure ClientRec where
  api_usage_current : Int := 0
  api_quota_monthly : Int := 1000
deriving DecidableEq

/-- Source `Client.can_generate_leads`. -/
def can_generate_leads (c : ClientRec) (count : Int) : Bool :=
  decide (c.api_usage_current + count ≤ c.api_quota_monthly)

/-- Source `Client.increment_api_usage`. -/
def increment_api_usage (c : ClientRec) (count : Int) : ClientRec :=
  { c with api_usage_current := c.api_usage_current + count }

/-- A persisted `Lead` row as built by `_save_leads_to_database`.  The Lead
model itself is absent from the source tree (src/models/lead.py holds route
code); its fields are taken from the constructor call in the pipeline. -/
structure SavedLead where
  client_id : String := ""
  campaign_id : Option String := none
  name : String := ""
  email : String := ""
  phone : String := ""
  company : String := ""
  title : String := ""
  industry : String := ""
  location : String := ""
  linkedin_url : String := ""
  score : Int := 0
  source : String := "apollo"
  email_verified : Bool := false
deriving DecidableEq

/-- The `Lead(...)` constructor call of `_save_leads_to_database`. -/
def mkSavedLead (client_id : String) (campaign_id : Option String)
    (l : CandidateLead) : SavedLead :=
  { client_id := client_id
    campaign_id := campaign_id
    name := l.name
    email := l.email
    phone := l.phone
    company := l.company
    title := l.title
    industry := l.industry
    location := l.location
    linkedin_url := l.linkedin_url
    score := l.score
    source := "apollo"
    email_verified := l.email_verified }

/-- External collaborators of one pipeline run: the Apollo search response
and the per-email / per-url outcomes of the enrichment providers. -/
structure Env where
  people : List ApolloPerson
  verify : String → Except String HunterVerifData
  linkedin_is_valid : String → Bool

/-- The mutable store state a pipeline run touches: the requesting client
row, its existing lead emails, and the leads table; `provider_calls` counts
issued provider search calls. -/
structure SysState where
  client : Option ClientRec := none
  existingEmails : List String := []
  savedLeads : List SavedLead := []
  provider_calls : Nat := 0
deriving DecidableEq

/-- The dictionary `generate_leads` returns (failure dictionaries carry no
`leads` key, modelled by the empty list). -/
structure GenResult where
  success : Bool
  error : Option String := none
  leads_generated : Nat := 0
  leads : List SavedLead := []
deriving DecidableEq

def client_not_found_msg : String := "Client not found"

def insufficient_quota_msg : String := "Client has insufficient quota"

/-- Source `LeadGenerationService._enhance_leads`, per candidate: annotate with the
email verification and LinkedIn validation outcomes (failures are swallowed
per candidate; `verify_email` itself never raises). -/
def enhance_lead (env : Env) (criteria : LeadCriteria) (l : CandidateLead) :
    CandidateLead :=
  let l1 :=
    if criteria.verify_emails && decide (l.email ≠ "") then
      let v := verify_email l.email (env.verify l.email)
      { l with
        email_verification_result := v.result.getD ""
        email_verified := is_email_deliverable v }
    else l
  if criteria.enrich_linkedin && decide (l1.linkedin_url ≠ "") then
    { l1 with linkedin_validation_is_valid := env.linkedin_is_valid l1.linkedin_url }
  else l1

/-- Source `LeadGenerationService._apply_ai_scoring`. -/
def apply_ai_scoring (leads : List CandidateLead) : List CandidateLead :=
  leads.map (fun l =>
    let scored := { l with score := calculate_lead_score l }
    { scored with score_breakdown := get_score_breakdown scored })

/-- Step 5 of `generate_leads` (lines 85-88): threshold on `min_score`, sort
descending by score (Python's stable sort with `reverse=True`), truncate to
`max_results`. -/
def select_final (scored : List CandidateLead) (min_score : Int) (max_results : Nat) :
    List CandidateLead :=
  (((scored.filter (fun l => decide (min_score ≤ l.score))).mergeSort
      (fun a b => decide (b.score ≤ a.score))).take max_results)

/-- Source `LeadGenerationService.generate_leads`: the full pipeline run as a state
transformer returning the updated store state and the result dictionary. -/
def generate_leads (env : Env) (st : SysState) (client_id : String)
    (criteria : LeadCriteria) (campaign_id : Option String) :
    SysState × GenResult :=
  match st.client with
  | none => (st, { success := false, error := some client_not_found_msg })
  | some client =>
    if !can_generate_leads client criteria.max_results then
      (st, { success := false, error := some insufficient_quota_msg })
    else
      let raw_leads := search_people env.people
      let st1 := { st with provider_calls := st.provider_calls + 1 }
      let filtered_leads := filter_and_deduplicate st.existingEmails raw_leads
      let enhanced_leads := filtered_leads.map (enhance_lead env criteria)
      let scored_leads := apply_ai_scoring enhanced_leads
      let final_leads := select_final scored_leads criteria.min_score criteria.max_results
      let saved_leads := final_leads.map (mkSavedLead client_id campaign_id)
      let st2 :=
        { st1 with
          savedLeads := st1.savedLeads ++ saved_leads
          client := some (increment_api_usage client saved_leads.length) }
      (st2,
       { success := true
         leads_generated := saved_leads.length
         leads := saved_leads })

/-- The leads a successful `generate_leads` run persists (steps 4-6 composed,
used to state the run's postconditions). -/
def pipeline_saved_leads (env : Env) (st : SysState) (client_id : String)
    (criteria : LeadCriteria) (campaign_id : Option String) : List SavedLead :=
  (select_final
    (apply_ai_scoring ((filter_and_deduplicate st.existingEmails
      (search_people env.people)).map (enhance_lead env criteria)))
    criteria.min_score criteria.max_results).map (mkSavedLead client_id campaign_id)

/-! Concrete instances for a run against a stored email that carries a
leading blank (stored emails are compared lower-cased but not stripped). -/

def cex3_env : Env :=
  { people := [{ first_name := "Jo", email := "x@y.com" }]
    verify := fun _ => .error "net down"
    linkedin_is_valid := fun _ => false }

def cex3_st : SysState := { client := some {}, existingEmails := [" x@y.com"] }

def cex3_criteria : LeadCriteria := { min_score := 0, max_results := 5 }

/-- The one candidate of `cex3_env` after filtering, enhancement and scoring. -/
def cex3_scored : CandidateLead :=
  { name := "Jo", email := "x@y.com", email_verification_result := "unknown",
    score := 15, score_breakdown := [("email_present", 15)] }


/-! ## Campaign model
`Campaign`, `CampaignExecution` and `CampaignScheduler`
(src/backend/src/models/campaign.py).  Timestamps are minutes as integers:
`timedelta(days=1)` is 1440, `weeks=1` is 10080, `hours=1` is 60,
`days=30` is 43200; `preferred_time` is minutes within the day. -/

structure CampaignRec where
  id : String := ""
  client_id : String := ""
  name : String := ""
  status : String := "active"
  frequency : String := "daily"
  frequency_value : Int := 1
  frequency_unit : String := "day"
  preferred_time : Option Int := none
  max_leads_per_run : Int := 50
  max_leads_total : Option Int := none
  total_leads_generated : Int := 0
  last_run_at : Option Int := none
  next_run_at : Option Int := none
deriving DecidableEq

/-- Source `Campaign.calculate_next_run`: the value the method computes from the
campaign's scheduling fields and the current time `now`. -/
def calculate_next_run (c : CampaignRec) (now : Int) : Int :=
  match c.last_run_at with
  | none =>
      match c.preferred_time with
      | some pt =>
          let nr := 1440 * (now.fdiv 1440) + pt
          if nr ≤ now then nr + 1440 else nr
      | none => now + 5
  | some lr =>
      if c.frequency = "daily" then lr + 1440
      else if c.frequency = "weekly" then lr + 10080
      else if c.frequency = "monthly" then lr + 43200
      else if c.frequency = "custom" then
        if c.frequency_unit = "day" then lr + 1440 * c.frequency_value
        else if c.frequency_unit = "week" then lr + 10080 * c.frequency_value
        else if c.frequency_unit = "hour" then lr + 60 * c.frequency_value
        else lr + 1440
      else lr + 1440

/-- The state change of `Campaign.calculate_next_run`: it stores the computed
value in `next_run_at` (and reads no other field it writes). -/
def apply_calculate_next_run (c : CampaignRec) (now : Int) : CampaignRec :=
  { c with next_run_at := some (calculate_next_run c now) }

/-- Source `Campaign.has_reached_total_limit`.  Python truthiness: a `max_leads_total`
of `None` or `0` means no ceiling. -/
def has_reached_total_limit (c : CampaignRec) : Bool :=
  match c.max_leads_total with
  | none => false
  | some t => if t = 0 then false else decide (t ≤ c.total_leads_generated)

/-- Source `Campaign.update_after_run`: set `last_run_at`, add the generated count,
recompute the next run, then complete the campaign if the ceiling is met. -/
def update_after_run (c : CampaignRec) (leads_generated : Int) (now : Int) :
    CampaignRec :=
  let c1 := { c with
    last_run_at := some now
    total_leads_generated := c.total_leads_generated + leads_generated }
  let c2 := apply_calculate_next_run c1 now
  if has_reached_total_limit c2 then { c2 with status := "completed" } else c2

/-- The due predicate of `CampaignScheduler.get_due_campaigns`:
`status == 'active' AND (next_run_at IS NULL OR next_run_at <= now)`. -/
def isDue (c : CampaignRec) (now : Int) : Bool :=
  c.status = "active" &&
    match c.next_run_at with
    | none => true
    | some nr => decide (nr ≤ now)

/-- Source `CampaignScheduler.get_due_campaigns`. -/
def get_due_campaigns (campaigns : List CampaignRec) (now : Int) :
    List CampaignRec :=
  campaigns.filter (fun c => isDue c now)

/-! ## Scheduler
`AutomatedCampaignScheduler._execute_campaign` and
`_check_and_run_campaigns` (src/backend/src/services/campaign_scheduler.py). -/

/-- A `CampaignExecution` row in its terminal state for one run. -/
structure ExecutionRec where
  campaign_id : String := ""
  status : String := "running"
  leads_generated : Int := 0
  error_message : Option String := none
  result_message : Option String := none
deriving DecidableEq

/-- Source `CampaignExecution.mark_completed`. -/
def mark_completed (e : ExecutionRec) (leads_generated : Int)
    (summary : Option String) : ExecutionRec :=
  { e with status := "completed", leads_generated := leads_generated,
           result_message := summary }

/-- Source `CampaignExecution.mark_failed`. -/
def mark_failed (e : ExecutionRec) (error_message : String) : ExecutionRec :=
  { e with status := "failed", error_message := some error_message }

/-- What one `_execute_campaign` call leaves behind: the campaign row, the
execution row it created (if any), whether the pipeline was invoked, and the
`max_results` it computed for the run (if it got that far). -/
structure ExecOutcome where
  campaign : CampaignRec
  execution : Option ExecutionRec := none
  pipeline_invoked : Bool := false
  requested_max : Option Int := none
deriving DecidableEq

/-- Source `AutomatedCampaignScheduler._execute_campaign`.  The pipeline call is
modelled by its outcome: `.ok` is the dictionary `generate_leads` returned
(the code reads `results.get('leads', [])` and never inspects `'success'`),
`.error` an exception raised by the call, which the `except` block records
on the execution. -/
def execute_campaign (c : CampaignRec) (pipelineOutcome : Except String GenResult)
    (now : Int) : ExecOutcome :=
  if has_reached_total_limit c then
    { campaign := { c with status := "completed" } }
  else
    let execution : ExecutionRec := { campaign_id := c.id, status := "running" }
    let max_results : Int :=
      min c.max_leads_per_run
        (match c.max_leads_total with
         | none => c.max_leads_per_run
         | some t => if t = 0 then c.max_leads_per_run
                     else t - c.total_leads_generated)
    if max_results ≤ 0 then
      { campaign := { c with status := "completed" }
        execution := some (mark_completed execution 0 (some "Total lead limit reached"))
        pipeline_invoked := false
        requested_max := some max_results }
    else
      match pipelineOutcome with
      | .ok results =>
          let leads_generated : Int := results.leads.length
          { campaign := update_after_run c leads_generated now
            execution := some (mark_completed execution leads_generated
              (some "result summary"))
            pipeline_invoked := true
            requested_max := some max_results }
      | .error e =>
          { campaign := c
            execution := some (mark_failed execution e)
            pipeline_invoked := true
            requested_max := some max_results }

/-- Source `AutomatedCampaignScheduler._check_and_run_campaigns`: one scheduler tick
runs `_execute_campaign` for every due campaign (`pipe` gives each campaign's
pipeline-call outcome). -/
def check_and_run_campaigns (campaigns : List CampaignRec)
    (pipe : CampaignRec → Except String GenResult) (now : Int) :
    List ExecOutcome :=
  (get_due_campaigns campaigns now).map (fun c => execute_campaign c (pipe c) now)

/-! Concrete campaigns and pipeline results for the scheduler claims. -/

def cmp5 : CampaignRec := { id := "cmp1", status := "active" }

/-- The dictionary `generate_leads` returns when the persistence commit
raises: `success: False` with the error message, no `leads` key. -/
def failed_commit_result : GenResult :=
  { success := false
    error := some "Failed to commit leads to database: disk full"
    leads_generated := 0 }

def cmp7cex : CampaignRec :=
  { id := "k"
    status := "active"
    max_leads_total := some 100
    total_leads_generated := 100
    max_leads_per_run := 50 }

def cmp7wit : CampaignRec :=
  { id := "w"
    status := "active"
    max_leads_total := some 10
    total_leads_generated := 9 }

def cmp8cex : CampaignRec :=
  { id := "z"
    status := "active"
    max_leads_total := some 0 }

def cmp8wit : CampaignRec :=
  { id := "w8"
    status := "active"
    max_leads_total := some 10
    total_leads_generated := 8 }

/-! # Theorems -/

/-! ## Scoring (claim C1) -/

theorem breakdown_total_append (a b : List (String × Int)) :
    breakdown_total (a ++ b) = breakdown_total a + breakdown_total b := by
  simp [breakdown_total]

theorem containsAny_au_mono (s : String)
    (h : containsAny s auDomainsBreakdown = true) :
    containsAny s auDomainsScore = true := by
  simp only [containsAny, auDomainsBreakdown, auDomainsScore, List.any_cons,
    List.any_nil, Bool.or_eq_true, Bool.or_false] at h ⊢
  tauto

theorem email_breakdown_total_le (l : CandidateLead) :
    breakdown_total (email_breakdown l) ≤ email_points l := by
  unfold email_breakdown email_points
  by_cases hsub : containsAny (lowerStr l.email) auDomainsBreakdown = true
  · have := containsAny_au_mono _ hsub
    split_ifs <;> simp_all [breakdown_total]
  · split_ifs <;> simp_all [breakdown_total]

theorem email_breakdown_total_eq (l : CandidateLead)
    (hau : containsAny (lowerStr l.email) auDomainsScore
          = containsAny (lowerStr l.email) auDomainsBreakdown) :
    breakdown_total (email_breakdown l) = email_points l := by
  unfold email_breakdown email_points
  rw [hau]
  split_ifs <;> simp_all [breakdown_total]

theorem phone_breakdown_total_eq (l : CandidateLead) :
    breakdown_total (phone_breakdown l) = phone_points l := by
  unfold phone_breakdown phone_points
  split_ifs <;> simp [breakdown_total]

theorem linkedin_breakdown_total_eq (l : CandidateLead) :
    breakdown_total (linkedin_breakdown l) = linkedin_points l := by
  unfold linkedin_breakdown linkedin_points
  split_ifs <;> simp [breakdown_total]

theorem company_breakdown_total_eq (l : CandidateLead) :
    breakdown_total (company_breakdown l) = company_points l := by
  unfold company_breakdown company_points
  split_ifs <;> simp [breakdown_total]

theorem email_points_nonneg (l : CandidateLead) : 0 ≤ email_points l := by
  unfold email_points; split_ifs <;> omega

theorem phone_points_nonneg (l : CandidateLead) : 0 ≤ phone_points l := by
  unfold phone_points; split_ifs <;> omega

theorem linkedin_points_nonneg (l : CandidateLead) : 0 ≤ linkedin_points l := by
  unfold linkedin_points; split_ifs <;> omega

theorem company_points_nonneg (l : CandidateLead) : 0 ≤ company_points l := by
  unfold company_points; split_ifs <;> omega

theorem title_points_nonneg (l : CandidateLead) : 0 ≤ title_points l := by
  unfold title_points; split_ifs <;> omega

theorem industry_points_nonneg (l : CandidateLead) : 0 ≤ industry_points l := by
  unfold industry_points; split_ifs <;> omega

theorem location_points_nonneg (l : CandidateLead) : 0 ≤ location_points l := by
  unfold location_points; split_ifs <;> omega

theorem get_score_breakdown_total_le (l : CandidateLead) :
    breakdown_total (get_score_breakdown l) ≤ raw_lead_score l := by
  have h1 := email_breakdown_total_le l
  have h2 := phone_breakdown_total_eq l
  have h3 := linkedin_breakdown_total_eq l
  have h4 := company_breakdown_total_eq l
  have h5 := title_points_nonneg l
  have h6 := industry_points_nonneg l
  have h7 := location_points_nonneg l
  unfold get_score_breakdown raw_lead_score
  rw [breakdown_total_append, breakdown_total_append, breakdown_total_append]
  omega

/-- C1.  The claim as written fails (see the counterexample): the breakdown
omits the title, industry and location contributions and checks a smaller
Australian-domain list than the score.  Amended claim: the score is an
integer in [0,100], the clamped breakdown total never exceeds the score, and
it equals the score whenever the candidate has an empty title, industry and
location and the two Australian-domain checks agree on its email. -/
theorem claim1_score_breakdown (l : CandidateLead) :
    (0 ≤ calculate_lead_score l ∧ calculate_lead_score l ≤ 100) ∧
    min (breakdown_total (get_score_breakdown l)) 100 ≤ calculate_lead_score l ∧
    (l.title = "" → l.industry = "" → l.location = "" →
      containsAny (lowerStr l.email) auDomainsScore
        = containsAny (lowerStr l.email) auDomainsBreakdown →
      min (breakdown_total (get_score_breakdown l)) 100 = calculate_lead_score l) := by
  have hraw : 0 ≤ raw_lead_score l := by
    have h1 := email_points_nonneg l
    have h2 := phone_points_nonneg l
    have h3 := linkedin_points_nonneg l
    have h4 := company_points_nonneg l
    have h5 := title_points_nonneg l
    have h6 := industry_points_nonneg l
    have h7 := location_points_nonneg l
    unfold raw_lead_score
    omega
  refine ⟨⟨le_min hraw (by norm_num), min_le_right _ _⟩, ?_, ?_⟩
  · exact min_le_min (get_score_breakdown_total_le l) le_rfl
  · intro ht hi hloc hau
    have htp : title_points l = 0 := by
      unfold title_points; rw [ht]; simp [lowerStr]
    have hip : industry_points l = 0 := by
      unfold industry_points; rw [hi]; simp [lowerStr]
    have hlp : location_points l = 0 := by
      unfold location_points; rw [hloc]; simp [lowerStr]
    have hb : breakdown_total (get_score_breakdown l) = raw_lead_score l := by
      have h1 := email_breakdown_total_eq l hau
      have h2 := phone_breakdown_total_eq l
      have h3 := linkedin_breakdown_total_eq l
      have h4 := company_breakdown_total_eq l
      unfold get_score_breakdown raw_lead_score
      rw [breakdown_total_append, breakdown_total_append, breakdown_total_append]
      omega
    unfold calculate_lead_score
    rw [hb]

/-- C1 counterexample: a candidate whose only signal is the title `"ceo"`
scores 15, but its breakdown is empty, so the clamped breakdown total is 0. -/
theorem claim1_counterexample :
    min (breakdown_total (get_score_breakdown ({ title := "ceo" } : CandidateLead))) 100
      ≠ calculate_lead_score ({ title := "ceo" } : CandidateLead) := by
  decide

/-- Witness for `claim1_score_breakdown` at a concrete candidate. -/
theorem claim1_witness :
    min (breakdown_total (get_score_breakdown ({ email := "a@b.com" } : CandidateLead))) 100
      = calculate_lead_score ({ email := "a@b.com" } : CandidateLead) :=
  (claim1_score_breakdown _).2.2 rfl rfl rfl (by decide)

/-! ## Quota pre-check (claim C2) -/

/-- C2.  When the client's usage plus the requested `max_results` exceeds the
monthly quota, `generate_leads` fails with the insufficient-quota error and
the store state is returned untouched: no provider search call was issued, no
lead was persisted, and the client row is unchanged. -/
theorem claim2_quota_precheck (env : Env) (st : SysState) (client_id : String)
    (criteria : LeadCriteria) (campaign_id : Option String) (c : ClientRec)
    (hc : st.client = some c)
    (hq : c.api_quota_monthly < c.api_usage_current + criteria.max_results) :
    (generate_leads env st client_id criteria campaign_id).2.success = false ∧
    (generate_leads env st client_id criteria campaign_id).2.error
      = some insufficient_quota_msg ∧
    (generate_leads env st client_id criteria campaign_id).1.provider_calls
      = st.provider_calls ∧
    (generate_leads env st client_id criteria campaign_id).1.savedLeads
      = st.savedLeads ∧
    (generate_leads env st client_id criteria campaign_id).1.client = st.client := by
  have hcan : can_generate_leads c criteria.max_results = false := by
    simp only [can_generate_leads, decide_eq_false_iff_not, not_le]
    omega
  simp [generate_leads, hc, hcan]

/-- Witness for `claim2_quota_precheck`: a client at 1000/1000 requesting one
more lead. -/
theorem claim2_witness :
    (1000 : Int) < 1000 + ((1 : Nat) : Int) ∧
    (generate_leads
        { people := [], verify := fun _ => .error "down", linkedin_is_valid := fun _ => false }
        { client := some { api_usage_current := 1000, api_quota_monthly := 1000 } }
        "c1" { max_results := 1 } none).2.success = false :=
  ⟨by norm_num,
   (claim2_quota_precheck _ _ _ _ _ _ rfl (by norm_num)).1⟩

/-! ## Hunter email verification (claim C10) -/

/-- C10.  `verify_email` is total at its interface: a transport failure is
not propagated but turned into a verification dictionary with result
`unknown`, status `error`, and the error message attached. -/
theorem claim10_verify_email_error_path (email e : String) :
    (verify_email email (.error e)).result = some "unknown" ∧
    (verify_email email (.error e)).status = some "error" ∧
    (verify_email email (.error e)).error = some e :=
  ⟨rfl, rfl, rfl⟩

/-! ## Apollo normalisation (claim C9) -/

/-- C9 (amended).  `_process_person_data` discards exactly the person records
whose (stripped) name is empty OR whose (stripped) email is empty — not only
those missing both — and normalises every kept record into the common
candidate-lead shape. -/
theorem claim9_process_person (p : ApolloPerson) :
    (process_person_data p = none ↔
      (apolloPersonName p = "" ∨ stripStr p.email = "")) ∧
    (∀ l, process_person_data p = some l →
      l.name = apolloPersonName p ∧ l.email = stripStr p.email ∧
      l.company = p.org_name ∧ l.title = p.title ∧
      l.industry = p.org_industry ∧ l.location = p.city ∧
      l.linkedin_url = p.linkedin_url ∧
      l.company_size = p.org_estimated_num_employees) := by
  constructor
  · by_cases h1 : apolloPersonName p = "" <;> by_cases h2 : stripStr p.email = "" <;>
      simp [process_person_data, h1, h2]
  · intro l hl
    by_cases h1 : apolloPersonName p = "" <;> by_cases h2 : stripStr p.email = "" <;>
      simp only [process_person_data, h1, h2, if_true, if_false, ite_true, ite_false,
        if_neg, if_pos, reduceIte] at hl
    · exact absurd hl (by simp)
    · exact absurd hl (by simp)
    · exact absurd hl (by simp)
    · simp only [Option.some.injEq] at hl
      subst hl
      exact ⟨rfl, rfl, rfl, rfl, rfl, rfl, rfl, rfl⟩

/-- C9 counterexample: a record with a name but no email is discarded, though
it is not missing both name and email as the claim requires for a discard. -/
theorem claim9_counterexample :
    process_person_data ({ first_name := "John" } : ApolloPerson) = none ∧
    ¬ (apolloPersonName ({ first_name := "John" } : ApolloPerson) = "" ∧
       stripStr ({ first_name := "John" } : ApolloPerson).email = "") := by
  decide

/-- Witness for `claim9_process_person` at a concrete kept record. -/
theorem claim9_witness :
    process_person_data ({ first_name := "Jo", email := "j@x.com" } : ApolloPerson)
      = some { name := "Jo", email := "j@x.com", score := 25 } ∧
    ({ name := "Jo", email := "j@x.com", score := 25 } : CandidateLead).name
      = apolloPersonName ({ first_name := "Jo", email := "j@x.com" } : ApolloPerson) :=
  ⟨by decide,
   ((claim9_process_person _).2 _ (by decide)).1⟩

/-! ## Campaign next-run computation (claim C6) -/

/-- The previously-run branch of `calculate_next_run`. -/
theorem calculate_next_run_of_last_run (c : CampaignRec) (now lr : Int)
    (h : c.last_run_at = some lr) :
    calculate_next_run c now =
      (if c.frequency = "daily" then lr + 1440
       else if c.frequency = "weekly" then lr + 10080
       else if c.frequency = "monthly" then lr + 43200
       else if c.frequency = "custom" then
         if c.frequency_unit = "day" then lr + 1440 * c.frequency_value
         else if c.frequency_unit = "week" then lr + 10080 * c.frequency_value
         else if c.frequency_unit = "hour" then lr + 60 * c.frequency_value
         else lr + 1440
       else lr + 1440) := by
  unfold calculate_next_run
  rw [h]

/-- C6 (amended).  `calculate_next_run` is idempotent: calling it again after
its `next_run_at` write, with unchanged campaign state and clock, returns the
same value (it never reads `next_run_at`).  For a previously-run campaign the
computed next run is strictly after `last_run_at` under every frequency
policy, provided a `custom` frequency has a positive `frequency_value` (the
code accepts non-positive values, see the counterexample). -/
theorem claim6_next_run (c : CampaignRec) (now : Int) (lr : Int) :
    calculate_next_run (apply_calculate_next_run c now) now
      = calculate_next_run c now ∧
    (c.last_run_at = some lr →
     (c.frequency = "custom" → 1 ≤ c.frequency_value) →
     lr < calculate_next_run c now) := by
  constructor
  · rfl
  · intro h hv
    rw [calculate_next_run_of_last_run c now lr h]
    split_ifs with hd hw hm hcu hu1 hu2 hu3 <;> try omega
    all_goals have h9 := hv hcu
    all_goals omega

/-- C6 counterexample: a previously-run `custom` campaign with
`frequency_value = 0` gets `next_run_at = last_run_at`, not strictly later. -/
theorem claim6_counterexample :
    ({ frequency := "custom", frequency_unit := "day", frequency_value := 0,
       last_run_at := some 1000 } : CampaignRec).last_run_at = some 1000 ∧
    ¬ (1000 < calculate_next_run
        ({ frequency := "custom", frequency_unit := "day", frequency_value := 0,
           last_run_at := some 1000 } : CampaignRec) 2000) := by
  decide

/-- Witness for `claim6_next_run` at a concrete daily campaign. -/
theorem claim6_witness :
    ({ frequency := "daily", last_run_at := some 100 } : CampaignRec).last_run_at
      = some 100 ∧
    100 < calculate_next_run
      ({ frequency := "daily", last_run_at := some 100 } : CampaignRec) 5000 :=
  ⟨rfl, (claim6_next_run _ 5000 100).2 rfl (by decide)⟩

/-! ## Final selection step (claim C4) -/

theorem scoreDescTrans (a b c : CandidateLead)
    (h1 : decide (b.score ≤ a.score) = true)
    (h2 : decide (c.score ≤ b.score) = true) :
    decide (c.score ≤ a.score) = true := by
  simp only [decide_eq_true_eq] at h1 h2 ⊢
  omega

theorem scoreDescTotal (a b : CandidateLead) :
    (decide (b.score ≤ a.score) || decide (a.score ≤ b.score)) = true := by
  simp only [Bool.or_eq_true, decide_eq_true_eq]
  omega

theorem select_final_mem (scored : List CandidateLead) (ms : Int) (mr : Nat)
    {l : CandidateLead} (h : l ∈ select_final scored ms mr) :
    l ∈ scored.filter (fun l => decide (ms ≤ l.score)) := by
  unfold select_final at h
  exact (List.mergeSort_perm _ _).mem_iff.mp (List.take_subset _ _ h)

theorem select_final_pairwise {R : CandidateLead → CandidateLead → Prop}
    (hsymm : ∀ {x y : CandidateLead}, R x y → R y x)
    (scored : List CandidateLead) (ms : Int) (mr : Nat)
    (h : scored.Pairwise R) : (select_final scored ms mr).Pairwise R := by
  unfold select_final
  have h1 : (scored.filter (fun l => decide (ms ≤ l.score))).Pairwise R :=
    (h.sublist (List.filter_sublist scored))
  have h2 :
      ((scored.filter (fun l => decide (ms ≤ l.score))).mergeSort
        (fun a b => decide (b.score ≤ a.score))).Pairwise R :=
    ((List.mergeSort_perm _ _).pairwise_iff (fun hxy => hsymm hxy)).mpr h1
  exact h2.sublist (List.take_sublist _ _)

/-- C4.  The final selection step keeps only candidates whose score meets
`min_score`, returns them in descending score order, caps the output at
`max_results`, takes nothing but qualified candidates (as a sub-permutation
of the qualified sublist), and keeps all of them when they fit the cap. -/
theorem claim4_final_selection (scored : List CandidateLead) (min_score : Int)
    (max_results : Nat) :
    (∀ l ∈ select_final scored min_score max_results, min_score ≤ l.score) ∧
    List.Sorted (fun a b => b.score ≤ a.score)
      (select_final scored min_score max_results) ∧
    (select_final scored min_score max_results).length ≤ max_results ∧
    (select_final scored min_score max_results).Subperm
      (scored.filter (fun l => decide (min_score ≤ l.score))) ∧
    ((scored.filter (fun l => decide (min_score ≤ l.score))).length ≤ max_results →
      (select_final scored min_score max_results).Perm
        (scored.filter (fun l => decide (min_score ≤ l.score)))) := by
  refine ⟨?_, ?_, ?_, ?_, ?_⟩
  · intro l hl
    have := (List.mem_filter.mp (select_final_mem scored min_score max_results hl)).2
    simpa using this
  · have hs :
        ((scored.filter (fun l => decide (min_score ≤ l.score))).mergeSort
          (fun a b => decide (b.score ≤ a.score))).Pairwise
          (fun a b => decide (b.score ≤ a.score) = true) :=
      List.sorted_mergeSort scoreDescTrans scoreDescTotal _
    have ht := hs.sublist (List.take_sublist max_results _)
    exact ht.imp (fun h => by simpa using h)
  · unfold select_final
    have := List.length_take max_results
      ((scored.filter (fun l => decide (min_score ≤ l.score))).mergeSort
        (fun a b => decide (b.score ≤ a.score)))
    omega
  · unfold select_final
    exact ((List.take_sublist _ _).subperm).trans (List.mergeSort_perm _ _).subperm
  · intro hlen
    unfold select_final
    rw [List.take_of_length_le (by rw [(List.mergeSort_perm _ _).length_eq]; exact hlen)]
    exact List.mergeSort_perm _ _

/-- Witness for `claim4_final_selection`: a two-candidate list where the
qualified sublist fits under the cap. -/
theorem claim4_witness :
    (([({ score := 80 } : CandidateLead), { score := 40 }].filter
        (fun l => decide ((50 : Int) ≤ l.score))).length ≤ 3) ∧
    (select_final [({ score := 80 } : CandidateLead), { score := 40 }] 50 3).Perm
      ([({ score := 80 } : CandidateLead), { score := 40 }].filter
        (fun l => decide ((50 : Int) ≤ l.score))) :=
  ⟨by decide, (claim4_final_selection _ 50 3).2.2.2.2 (by decide)⟩

/-! ## Deduplication invariants and pipeline postconditions (claim C3) -/

theorem filterDedupGo_mem (ex : List String) (leads : List CandidateLead) :
    ∀ (seen : List String) (l : CandidateLead), l ∈ filterDedupGo ex seen leads →
      normEmail l.email ∉ ex ∧ normEmail l.email ∉ seen := by
  induction leads with
  | nil => intro seen l h; simp [filterDedupGo] at h
  | cons a rest ih =>
    intro seen l h
    simp only [filterDedupGo] at h
    split_ifs at h with h1 h2 h3 h4 h5
    · exact ih seen l h
    · exact ih seen l h
    · exact ih seen l h
    · exact ih seen l h
    · exact ih seen l h
    · rcases List.mem_cons.mp h with rfl | h'
      · exact ⟨h3, h2⟩
      · have hrec := ih (normEmail a.email :: seen) l h'
        exact ⟨hrec.1, fun hs => hrec.2 (List.mem_cons_of_mem _ hs)⟩

theorem filterDedupGo_pairwise (ex : List String) (leads : List CandidateLead) :
    ∀ seen : List String, (filterDedupGo ex seen leads).Pairwise
      (fun a b => normEmail a.email ≠ normEmail b.email) := by
  induction leads with
  | nil => intro seen; simp [filterDedupGo]
  | cons a rest ih =>
    intro seen
    simp only [filterDedupGo]
    split_ifs with h1 h2 h3 h4 h5
    · exact ih seen
    · exact ih seen
    · exact ih seen
    · exact ih seen
    · exact ih seen
    · refine List.Pairwise.cons ?_ (ih _)
      intro b hb he
      apply (filterDedupGo_mem ex rest (normEmail a.email :: seen) b hb).2
      rw [← he]
      exact List.mem_cons_self _ _

/-- The candidates surviving `_filter_and_deduplicate` carry pairwise
distinct normalised emails. -/
theorem filter_and_deduplicate_pairwise (ex : List String)
    (leads : List CandidateLead) :
    (filter_and_deduplicate ex leads).Pairwise
      (fun a b => normEmail a.email ≠ normEmail b.email) :=
  filterDedupGo_pairwise _ leads []

/-- No surviving candidate's normalised email is among the client's existing
emails as the code compares them (lower-cased, not stripped). -/
theorem filter_and_deduplicate_not_existing (ex : List String)
    (leads : List CandidateLead) :
    ∀ l ∈ filter_and_deduplicate ex leads,
      normEmail l.email ∉ ex.map lowerStr :=
  fun l h => (filterDedupGo_mem _ leads [] l h).1

/-- Enhancement only annotates a candidate; its email is unchanged. -/
theorem enhance_lead_email (env : Env) (criteria : LeadCriteria)
    (l : CandidateLead) : (enhance_lead env criteria l).email = l.email := by
  simp only [enhance_lead]
  split_ifs <;> rfl

theorem scored_emails (env : Env) (criteria : LeadCriteria)
    (filtered : List CandidateLead) :
    ∀ l ∈ apply_ai_scoring (filtered.map (enhance_lead env criteria)),
      ∃ x ∈ filtered, l.email = x.email := by
  intro l hl
  unfold apply_ai_scoring at hl
  rw [List.map_map] at hl
  obtain ⟨x, hx, rfl⟩ := List.mem_map.mp hl
  exact ⟨x, hx, enhance_lead_email env criteria x⟩

theorem scored_pairwise (env : Env) (criteria : LeadCriteria)
    (filtered : List CandidateLead)
    (h : filtered.Pairwise (fun a b => normEmail a.email ≠ normEmail b.email)) :
    (apply_ai_scoring (filtered.map (enhance_lead env criteria))).Pairwise
      (fun a b => normEmail a.email ≠ normEmail b.email) := by
  unfold apply_ai_scoring
  rw [List.map_map]
  refine List.pairwise_map.mpr (h.imp ?_)
  intro a b hab
  show normEmail (enhance_lead env criteria a).email
      ≠ normEmail (enhance_lead env criteria b).email
  rw [enhance_lead_email, enhance_lead_email]
  exact hab

/-- A successful run reduces to its explicit postcondition form. -/
theorem generate_leads_success_run (env : Env) (st : SysState)
    (client_id : String) (criteria : LeadCriteria) (campaign_id : Option String)
    (c : ClientRec) (hc : st.client = some c)
    (hq : can_generate_leads c criteria.max_results = true) :
    generate_leads env st client_id criteria campaign_id =
      ({ st with
          provider_calls := st.provider_calls + 1
          savedLeads := st.savedLeads ++
            pipeline_saved_leads env st client_id criteria campaign_id
          client := some (increment_api_usage c
            (pipeline_saved_leads env st client_id criteria campaign_id).length) },
       { success := true
         error := none
         leads_generated :=
           (pipeline_saved_leads env st client_id criteria campaign_id).length
         leads := pipeline_saved_leads env st client_id criteria campaign_id }) := by
  unfold generate_leads pipeline_saved_leads
  rw [hc]
  simp [hq]

/-- C3 (amended).  After a successful pipeline run the client's usage counter
has grown by the number of leads actually saved, the saved leads carry
pairwise distinct normalised (lower-cased, stripped) emails, and no saved
lead's normalised email equals the lower-cased (but, unlike the claim, not
stripped) form of an email already stored for the client; the claim's
stripped comparison holds under the extra assumption that the stored emails
carry no surrounding whitespace. -/
theorem claim3_pipeline_postconditions (env : Env) (st : SysState)
    (client_id : String) (criteria : LeadCriteria) (campaign_id : Option String)
    (c : ClientRec) (st' : SysState) (r : GenResult)
    (hc : st.client = some c)
    (hq : can_generate_leads c criteria.max_results = true)
    (hrun : generate_leads env st client_id criteria campaign_id = (st', r)) :
    r.success = true ∧
    st'.client = some (increment_api_usage c r.leads.length) ∧
    st'.savedLeads = st.savedLeads ++ r.leads ∧
    r.leads.Pairwise (fun a b => normEmail a.email ≠ normEmail b.email) ∧
    (∀ s ∈ r.leads, normEmail s.email ∉ st.existingEmails.map lowerStr) ∧
    ((∀ e ∈ st.existingEmails, stripStr (lowerStr e) = lowerStr e) →
      ∀ s ∈ r.leads, normEmail s.email ∉ st.existingEmails.map normEmail) := by
  rw [generate_leads_success_run env st client_id criteria campaign_id c hc hq] at hrun
  injection hrun with h1 h2
  subst h1
  subst h2
  have hp : (pipeline_saved_leads env st client_id criteria campaign_id).Pairwise
      (fun a b => normEmail a.email ≠ normEmail b.email) := by
    unfold pipeline_saved_leads
    have hp0 := filter_and_deduplicate_pairwise st.existingEmails
      (search_people env.people)
    have hp1 := scored_pairwise env criteria _ hp0
    have hp2 := select_final_pairwise (fun hxy => hxy.symm) _
      criteria.min_score criteria.max_results hp1
    exact List.pairwise_map.mpr (hp2.imp (fun hab => hab))
  have hmain : ∀ s ∈ pipeline_saved_leads env st client_id criteria campaign_id,
      normEmail s.email ∉ st.existingEmails.map lowerStr := by
    intro s hs
    unfold pipeline_saved_leads at hs
    obtain ⟨l, hl, rfl⟩ := List.mem_map.mp hs
    have hlf := select_final_mem _ _ _ hl
    have hl2 := (List.mem_filter.mp hlf).1
    obtain ⟨x, hx, hex⟩ := scored_emails env criteria _ l hl2
    show normEmail l.email ∉ st.existingEmails.map lowerStr
    rw [hex]
    exact filter_and_deduplicate_not_existing _ _ x hx
  refine ⟨rfl, rfl, rfl, hp, hmain, ?_⟩
  intro htrim s hs
  have heq : st.existingEmails.map normEmail = st.existingEmails.map lowerStr :=
    List.map_congr_left (fun e he => by unfold normEmail; rw [htrim e he])
  rw [heq]
  exact hmain s hs

/-- C3 counterexample: the client already stores `" x@y.com"` (leading
blank); its normalised form is `"x@y.com"`, yet a successful run saves a new
lead with exactly that normalised email, because the code lower-cases but
does not strip the stored side of the comparison. -/
theorem claim3_counterexample :
    (generate_leads cex3_env cex3_st "c1" cex3_criteria none).2.success = true ∧
    (generate_leads cex3_env cex3_st "c1" cex3_criteria none).2.leads.map
      (fun s => normEmail s.email) = ["x@y.com"] ∧
    "x@y.com" ∈ cex3_st.existingEmails.map normEmail := by
  have hred := generate_leads_success_run cex3_env cex3_st "c1" cex3_criteria none
    {} rfl (by decide)
  rw [hred]
  have hsaved : pipeline_saved_leads cex3_env cex3_st "c1" cex3_criteria none
      = [mkSavedLead "c1" none cex3_scored] := by
    unfold pipeline_saved_leads
    have h1 : apply_ai_scoring ((filter_and_deduplicate cex3_st.existingEmails
        (search_people cex3_env.people)).map (enhance_lead cex3_env cex3_criteria))
        = [cex3_scored] := by decide
    rw [h1]
    unfold select_final
    have h2 : [cex3_scored].filter
        (fun l => decide (cex3_criteria.min_score ≤ l.score)) = [cex3_scored] := by
      decide
    rw [h2, List.mergeSort_singleton]
    rfl
  rw [hsaved]
  exact ⟨rfl, by decide, by decide⟩

/-- Witness for `claim3_pipeline_postconditions` at a concrete quota-passing
run. -/
theorem claim3_witness :
    can_generate_leads ({} : ClientRec) 100 = true ∧
    (generate_leads
      { people := [], verify := fun _ => .error "down",
        linkedin_is_valid := fun _ => false }
      { client := some {} } "c1" {} none).2.success = true :=
  ⟨by decide,
   (claim3_pipeline_postconditions
      { people := [], verify := fun _ => .error "down",
        linkedin_is_valid := fun _ => false }
      { client := some {} } "c1" {} none {} _ _ rfl (by decide) rfl).1⟩

/-! ## Scheduler handling of pipeline failure (claim C5) -/

/-- C5.  The claim matches the spec (§4.5 failure policy, §4.7.f and the
§8 rollback scenario), but the code drops it: `generate_leads` never raises —
it reports failure through a `success: False` dictionary (persistence
failures included) — while `_execute_campaign` only handles raised
exceptions and never inspects `'success'`.  At the failing input below (a
run whose persistence commit failed) the execution is marked `completed`
with zero leads and no error message, and the campaign's `next_run_at` is
advanced by `update_after_run`, where the claim requires a `failed`
execution with a non-empty message and an unchanged next run. -/
theorem claim5_failure_marked_completed :
    (execute_campaign cmp5 (.ok failed_commit_result) 5000).execution.map
      (fun e => e.status) = some "completed" ∧
    (execute_campaign cmp5 (.ok failed_commit_result) 5000).execution.map
      (fun e => e.error_message) = some none ∧
    (execute_campaign cmp5 (.ok failed_commit_result) 5000).campaign.status
      = "active" ∧
    (execute_campaign cmp5 (.ok failed_commit_result) 5000).campaign.next_run_at
      = some 6440 ∧
    cmp5.next_run_at = none := by
  decide

/-! ## Effective per-run limit (claim C7) -/

theorem has_reached_total_limit_false (c : CampaignRec) (t : Int)
    (ht : c.max_leads_total = some t) (h0 : 0 ≤ c.total_leads_generated)
    (hlt : c.total_leads_generated < t) :
    has_reached_total_limit c = false := by
  unfold has_reached_total_limit
  rw [ht]
  have ht0 : ¬ t = 0 := by omega
  simp only [ht0, if_false, decide_eq_false_iff_not, not_le]
  omega

/-- C7 (amended).  For a due campaign whose ceiling is set and not yet
reached, the scheduler computes the effective run limit as
`min(max_leads_per_run, max_leads_total - total_leads_generated)`; whenever
that value is ≤ 0 (which requires a non-positive per-run limit) the execution
is marked completed with zero leads, the campaign is completed, and the
pipeline is not invoked.  (A due campaign already at or past its ceiling is
completed without any execution being created — see the counterexample.) -/
theorem claim7_effective_limit (c : CampaignRec)
    (outcome : Except String GenResult) (now : Int) (t : Int)
    (_hdue : isDue c now = true)
    (ht : c.max_leads_total = some t)
    (h0 : 0 ≤ c.total_leads_generated)
    (hlt : c.total_leads_generated < t) :
    (execute_campaign c outcome now).requested_max
      = some (min c.max_leads_per_run (t - c.total_leads_generated)) ∧
    (min c.max_leads_per_run (t - c.total_leads_generated) ≤ 0 →
      (execute_campaign c outcome now).campaign.status = "completed" ∧
      (execute_campaign c outcome now).execution.map (fun e => e.status)
        = some "completed" ∧
      (execute_campaign c outcome now).execution.map (fun e => e.leads_generated)
        = some 0 ∧
      (execute_campaign c outcome now).pipeline_invoked = false) := by
  have hreach := has_reached_total_limit_false c t ht h0 hlt
  have ht0 : ¬ t = 0 := by omega
  simp only [execute_campaign, hreach, Bool.false_eq_true, if_false, ht, ht0]
  split_ifs with hle
  · exact ⟨rfl, fun _ => ⟨rfl, rfl, rfl, rfl⟩⟩
  · cases outcome with
    | ok results => exact ⟨rfl, fun h => absurd h hle⟩
    | error e => exact ⟨rfl, fun h => absurd h hle⟩

/-- C7 counterexample: a due campaign that already reached its ceiling
(`100/100`).  The claim's effective limit `min(50, 100-100) = 0` is ≤ 0 and
the claim requires an execution marked completed with zero leads, but the
code completes the campaign without creating any execution. -/
theorem claim7_counterexample :
    isDue cmp7cex 0 = true ∧
    min cmp7cex.max_leads_per_run (100 - 100) ≤ 0 ∧
    (execute_campaign cmp7cex (.ok { success := true }) 0).execution = none ∧
    (execute_campaign cmp7cex (.ok { success := true }) 0).campaign.status
      = "completed" := by
  decide

/-- Witness for `claim7_effective_limit`: ceiling 10, 9 generated, per-run
limit 50 gives an effective limit of `min 50 1`. -/
theorem claim7_witness :
    isDue cmp7wit 0 = true ∧
    (execute_campaign cmp7wit (.ok { success := true }) 0).requested_max
      = some (min cmp7wit.max_leads_per_run (10 - 9)) :=
  ⟨by decide,
   (claim7_effective_limit _ _ 0 10 (by decide) rfl (by decide) (by decide)).1⟩

/-! ## Ceiling completion and scheduler selection (claim C8) -/

/-- C8 (amended).  With a ceiling set to a nonzero value, the run whose
post-run cumulative count reaches or passes it leaves the campaign
`completed`; completed campaigns are never selected by
`get_due_campaigns` (the tick only ever builds executions from due, active
campaigns), so no further execution is created for them.  The code treats a
ceiling of 0 as "no ceiling" (Python truthiness), see the counterexample. -/
theorem claim8_ceiling_completion (c : CampaignRec) (leads now t : Int)
    (ht : c.max_leads_total = some t) (ht0 : t ≠ 0)
    (hcross : t ≤ c.total_leads_generated + leads) :
    (update_after_run c leads now).status = "completed" ∧
    (∀ (campaigns : List CampaignRec) (now2 : Int),
      update_after_run c leads now ∉ get_due_campaigns campaigns now2) ∧
    (∀ (campaigns : List CampaignRec)
       (pipe : CampaignRec → Except String GenResult) (now2 : Int)
       (o : ExecOutcome), o ∈ check_and_run_campaigns campaigns pipe now2 →
      ∃ d, d ∈ get_due_campaigns campaigns now2 ∧ d.status = "active" ∧
        o = execute_campaign d (pipe d) now2) := by
  have hstat : (update_after_run c leads now).status = "completed" := by
    simp only [update_after_run]
    split_ifs with h
    · rfl
    · exfalso
      apply h
      dsimp only [apply_calculate_next_run, has_reached_total_limit]
      rw [ht]
      simp only [ht0, if_false, decide_eq_true_eq]
      omega
  refine ⟨hstat, ?_, ?_⟩
  · intro campaigns now2 hmem
    have hdue := (List.mem_filter.mp hmem).2
    unfold isDue at hdue
    rw [hstat] at hdue
    simp at hdue
  · intro campaigns pipe now2 o ho
    unfold check_and_run_campaigns at ho
    obtain ⟨d, hd, rfl⟩ := List.mem_map.mp ho
    refine ⟨d, hd, ?_, rfl⟩
    have hdue := (List.mem_filter.mp hd).2
    simp only [isDue, Bool.and_eq_true, decide_eq_true_eq] at hdue
    exact hdue.1

/-- C8 counterexample: a ceiling "set" to 0 is treated as no ceiling.  The
run taking the cumulative count from 0 to 5 reaches the ceiling 0, yet the
campaign stays `active` and is still selected as due afterwards. -/
theorem claim8_counterexample :
    cmp8cex.max_leads_total = some 0 ∧
    (0 : Int) ≤ cmp8cex.total_leads_generated + 5 ∧
    (update_after_run cmp8cex 5 100).status = "active" ∧
    isDue (update_after_run cmp8cex 5 100) 99999 = true := by
  decide

/-- Witness for `claim8_ceiling_completion`: ceiling 10, crossing run takes
the total from 8 to 13. -/
theorem claim8_witness :
    cmp8wit.max_leads_total = some 10 ∧
    (10 : Int) ≤ cmp8wit.total_leads_generated + 5 ∧
    (update_after_run cmp8wit 5 100).status = "completed" :=
  ⟨rfl, by decide,
   (claim8_ceiling_completion _ 5 100 10 rfl (by norm_num) (by decide)).1⟩

end Livewire
